import Mathlib

/-!
Shallow embedding of the rust-aws-ses-sender dispatch pipeline.

Source files embedded here:
- src/models/request.rs   (EmailRequest, EmailMessageStatus, save / update)
- src/models/result.rs    (EmailResult, save)
- src/services/scheduler.rs (schedule_pre_send_message)
- src/services/receiver.rs  (receive_send_message, post-send outcome)
- src/services/sender.rs    (send_email result mapping)
- src/handlers/message_handlers.rs (create_message_handler)
- src/handlers/event_handlers.rs   (open_message_handler, create_event_handler)
- src/main.rs (channel capacities), src/config.rs (defaults)
-/

namespace SesSender

/-- Email message status, from `EmailMessageStatus` in src/models/request.rs:
Created=0, Processed=1, Sent=2, Failed=3, Stopped=4. The Rust code stores the
status as an `i32`, so the embedding keeps statuses as `Int` constants. -/
def statusCreated : Int := 0

def statusProcessed : Int := 1

def statusSent : Int := 2

def statusFailed : Int := 3

def statusStopped : Int := 4

/-- In-memory email request, from `struct EmailRequest` in src/models/request.rs. -/
structure EmailRequest where
  id : Option Int
  topic_id : Option String
  email : String
  subject : String
  content : String
  scheduled_at : Option String
  status : Int
  error : Option String
  message_id : Option String
deriving Repr, DecidableEq

/-- A persisted row of the `email_requests` table (schema in the test setup of
src/models/result.rs). `id` is an `INTEGER PRIMARY KEY`, hence never NULL in
the store, so it is a plain `Int` here. `scheduled_at` is a DATETIME stored as
a `YYYY-MM-DD HH:MM:SS` text value. -/
structure DbEmailRequest where
  id : Int
  topic_id : String
  message_id : Option String
  email : String
  subject : String
  content : String
  scheduled_at : String
  status : Int
  error : Option String
deriving Repr, DecidableEq

/-- Email delivery result, from `struct EmailResult` in src/models/result.rs. -/
structure EmailResult where
  id : Option Int
  request_id : Int
  status : String
  raw : Option String
deriving Repr, DecidableEq

/-! ### Channel capacities and config defaults

src/main.rs lines 43-44:
`let (tx_send, rx_send) = tokio::sync::mpsc::channel(1);`
`let (tx_post_send, rx_post_send) = tokio::sync::mpsc::channel(1000);`
-/

/-- Capacity of the send-queue channel (`tx_send`/`rx_send`), src/main.rs:43. -/
def sendQueueCapacity : Nat := 1

/-- Capacity of the outcome-queue channel (`tx_post_send`/`rx_post_send`),
src/main.rs:44. -/
def outcomeQueueCapacity : Nat := 1000

/-- Default of `MAX_SEND_PER_SECOND`, src/config.rs:29-32. -/
def maxSendPerSecondDefault : Nat := 24

/-! ### Rate gate (src/services/receiver.rs:19-23)

`let mut interval = interval(Duration::from_millis(1000 / max_send_per_second as u64));`
and, each loop iteration, `interval.tick().await` followed by a blocking
`rx_guard.recv().await`.

The tick period is computed with integer (truncating) division. tokio's
`interval` is left at its default MissedTickBehavior::Burst: the deadline
schedule stays at gate-start + k * period, so the k-th tick never completes
before its deadline, but while the consumer is late (blocked in `recv` on an
empty send-queue) missed ticks are banked and fire back-to-back once it
returns. A dispatch trace of the sender loop is therefore any monotone
assignment of tick-completion times respecting the deadline lower bound. -/

/-- Tick period in milliseconds: `1000 / max_send_per_second` with integer
division, src/services/receiver.rs:19. -/
def tickPeriodMs (n : Nat) : Nat := 1000 / n

/-- Deadline of the k-th tick, `k * (1000 / N)` ms after gate start. It is
also the dispatch schedule of the most favorable trace, in which every tick
completes exactly on its deadline (send-queue never empty) — the realization
used to refute the spec's per-second bound. -/
def dispatchTimeMs (n k : Nat) : Nat := k * tickPeriodMs n

/-- Dispatch indices of the on-time trace falling in the sliding window
[t, t+1000). Since `tickPeriodMs n ≥ 1` for `n ≤ 1000`, every such index is
below `t + 1000`, so the range is exhaustive. -/
def dispatchesInWindow (n t : Nat) : Finset Nat :=
  (Finset.range (t + 1000)).filter
    (fun k => t ≤ dispatchTimeMs n k ∧ dispatchTimeMs n k < t + 1000)

/-- A dispatch trace of `receive_send_message`: `tick k` is the completion
time (ms after gate start) of the k-th `interval.tick()`. Under the default
MissedTickBehavior::Burst the deadline schedule is kept, so a tick never
completes before `dispatchTimeMs n k`; banked ticks may complete arbitrarily
late and together (completions are monotone in k). -/
def IsDispatchTrace (n : Nat) (tick : Nat → Nat) : Prop :=
  (∀ k, dispatchTimeMs n k ≤ tick k) ∧ Monotone tick

/-- The drought-then-flood trace: the receiver sits blocked on an empty
send-queue until time `d` (for example during the scheduler's 60 s sleep);
when a claimed batch then floods in, every tick whose deadline has passed
fires immediately at `d`. -/
def burstTick (d k : Nat) : Nat := max (dispatchTimeMs maxSendPerSecondDefault k) d

/-- Dispatches of a trace that fall in the window [lo, hi), among the first
`m` ticks. -/
def traceDispatchesIn (tick : Nat → Nat) (lo hi m : Nat) : Finset Nat :=
  (Finset.range m).filter (fun k => lo ≤ tick k ∧ tick k < hi)

/-! ### Wall-clock datetimes (chrono embedding)

src/models/request.rs `EmailRequest::save` parses `scheduled_at` with
`NaiveDateTime::parse_from_str(&s, "%Y-%m-%d %H:%M:%S")`, interprets it in the
local timezone, converts to UTC and formats it back with the same pattern.
chrono's parser is lenient: each numeric item first skips whitespace and then
reads between 1 and width digits (width 4 for `%Y`, 2 for the rest); `%Y`
alone accepts a leading `+`/`-` sign, and then any number of digits; the
literal `-` and `:` separators must match exactly; the space of the pattern
consumes any amount of whitespace, including none; the whole input must be
consumed; and the assembled fields are range-checked (months 1-12, a real
calendar day, hours 0-23, minutes 0-59, seconds 0-60 where 60 denotes a leap
second, years within NaiveDate's -262144..=262143). Datetimes are civil
(proleptic Gregorian) field records; the local-to-UTC conversion is a fixed
offset `offsetSecs` (chrono's `local_minus_utc`, seconds east of UTC)
subtracted at the epoch-seconds level, which is how chrono realises it. -/

structure CivilDateTime where
  year : Int
  month : Nat
  day : Nat
  hour : Nat
  minute : Nat
  second : Nat
deriving Repr, DecidableEq

def isLeapYear (y : Int) : Bool :=
  (y.emod 4 == 0 && y.emod 100 != 0) || (y.emod 400 == 0)

def daysInMonth (y : Int) (m : Nat) : Nat :=
  if m == 2 then (if isLeapYear y then 29 else 28)
  else if m == 4 || m == 6 || m == 9 || m == 11 then 30
  else 31

/-- The range check chrono's `Parsed` performs when assembling a
`NaiveDateTime` (60 in the seconds field is the `%S` leap-second
convention). -/
def validCivil (dt : CivilDateTime) : Bool :=
  -262144 ≤ dt.year && dt.year ≤ 262143 && 1 ≤ dt.month && dt.month ≤ 12 &&
    1 ≤ dt.day && dt.day ≤ daysInMonth dt.year dt.month &&
    dt.hour ≤ 23 && dt.minute ≤ 59 && dt.second ≤ 60

/-- Skip whitespace, as chrono does before each numeric item and for the
whitespace items of a pattern. -/
def dropWs : List Char → List Char
  | c :: cs => if c.isWhitespace then dropWs cs else c :: cs
  | [] => []

/-- chrono's `scan::number`: read at least one and at most `maxw` digits,
greedily, returning the accumulated value and the rest of the input. -/
def scanNum : Nat → List Char → Nat → Bool → Option (Nat × List Char)
  | _, [], acc, seen => if seen then some (acc, []) else none
  | 0, cs, acc, seen => if seen then some (acc, cs) else none
  | w + 1, c :: cs, acc, seen =>
    if c.isDigit then scanNum w cs (acc * 10 + (c.toNat - 48)) true
    else if seen then some (acc, c :: cs) else none

/-- An unsigned numeric item: skip leading whitespace, then 1..maxw digits. -/
def parseField (maxw : Nat) (cs : List Char) : Option (Nat × List Char) :=
  scanNum maxw (dropWs cs) 0 false

/-- The `%Y` item: width 4 when unsigned; after an explicit `+`/`-` sign the
digit count is unbounded (chrono's signed scan; 100 digits bound anything the
later range check could accept). -/
def parseYearField (cs : List Char) : Option (Int × List Char) :=
  match dropWs cs with
  | '-' :: rest => (scanNum 100 rest 0 false).map (fun p => (-(p.1 : Int), p.2))
  | '+' :: rest => (scanNum 100 rest 0 false).map (fun p => ((p.1 : Int), p.2))
  | rest => (scanNum 4 rest 0 false).map (fun p => ((p.1 : Int), p.2))

/-- A literal separator item: must match exactly, no whitespace skipping. -/
def parseLit (c : Char) (cs : List Char) : Option (List Char) :=
  match cs with
  | c2 :: rest => if c2 == c then some rest else none
  | [] => none

/-- `NaiveDateTime::parse_from_str(&s, "%Y-%m-%d %H:%M:%S")`
(src/models/request.rs:43), item by item with chrono's leniencies (unpadded
fields, signed years, whitespace before numeric fields, an empty match for
the pattern's space), requiring full consumption and range-validity. -/
def parseCivil (s : String) : Option CivilDateTime :=
  (parseYearField s.toList).bind (fun py =>
  (parseLit '-' py.2).bind (fun r2 =>
  (parseField 2 r2).bind (fun pmo =>
  (parseLit '-' pmo.2).bind (fun r4 =>
  (parseField 2 r4).bind (fun pd =>
  (parseField 2 (dropWs pd.2)).bind (fun ph =>
  (parseLit ':' ph.2).bind (fun r8 =>
  (parseField 2 r8).bind (fun pmi =>
  (parseLit ':' pmi.2).bind (fun r10 =>
  (parseField 2 r10).bind (fun ps =>
    if ps.2.isEmpty then
      let dt : CivilDateTime := ⟨py.1, pmo.1, pd.1, ph.1, pmi.1, ps.1⟩
      if validCivil dt then some dt else none
    else none))))))))))

/-- Days since 0000-03-01 (Hinnant's `days_from_civil`, the algorithm behind
chrono's `NaiveDate` day arithmetic), on all years via floor division. -/
def toDayNumber (dt : CivilDateTime) : Int :=
  let y : Int := if dt.month ≤ 2 then dt.year - 1 else dt.year
  let mp : Nat := if dt.month ≤ 2 then dt.month + 9 else dt.month - 3
  let era : Int := y.ediv 400
  let yoe : Nat := (y.emod 400).toNat
  let doy : Nat := (153 * mp + 2) / 5 + dt.day - 1
  let doe : Nat := yoe * 365 + yoe / 4 - yoe / 100 + doy
  era * 146097 + (doe : Int)

/-- Inverse of `toDayNumber` (Hinnant's `civil_from_days`). -/
def fromDayNumber (z : Int) : Int × Nat × Nat :=
  let era : Int := z.ediv 146097
  let doe : Nat := (z.emod 146097).toNat
  let yoe : Nat := (doe - doe / 1460 + doe / 36524 - doe / 146096) / 365
  let y : Int := (yoe : Int) + era * 400
  let doy : Nat := doe - (365 * yoe + yoe / 4 - yoe / 100)
  let mp : Nat := (5 * doy + 2) / 153
  let d : Nat := doy - (153 * mp + 2) / 5 + 1
  let m : Nat := if mp < 10 then mp + 3 else mp - 9
  (if m ≤ 2 then y + 1 else y, m, d)

/-- Seconds since 0000-03-01T00:00:00. A leap second (`second = 60`) shares
its timestamp with second 59, as in chrono's arithmetic. -/
def toEpochSecs (dt : CivilDateTime) : Int :=
  toDayNumber dt * 86400 +
    ((dt.hour * 3600 + dt.minute * 60 + min dt.second 59 : Nat) : Int)

def fromEpochSecs (t : Int) : CivilDateTime :=
  let ymd := fromDayNumber (t.ediv 86400)
  let secs : Nat := (t.emod 86400).toNat
  ⟨ymd.1, ymd.2.1, ymd.2.2, secs / 3600, secs % 3600 / 60, secs % 60⟩

def pad2 (n : Nat) : String :=
  if n < 10 then "0" ++ toString n else toString n

def pad4 (n : Nat) : String :=
  if n < 10 then "000" ++ toString n
  else if n < 100 then "00" ++ toString n
  else if n < 1000 then "0" ++ toString n
  else toString n

/-- `%Y` formatting: years 0..=9999 zero-padded to 4 digits; years outside
that range carry an explicit sign (chrono's convention). -/
def formatYear (y : Int) : String :=
  if y < 0 then "-" ++ pad4 (-y).toNat
  else if y ≤ 9999 then pad4 y.toNat
  else "+" ++ toString y.toNat

/-- Formatting with the pattern `%Y-%m-%d %H:%M:%S`. -/
def formatCivil (dt : CivilDateTime) : String :=
  formatYear dt.year ++ "-" ++ pad2 dt.month ++ "-" ++ pad2 dt.day ++ " " ++
    pad2 dt.hour ++ ":" ++ pad2 dt.minute ++ ":" ++ pad2 dt.second

/-! ### Persisting a request (src/models/request.rs, `EmailRequest::save`) -/

/-- The `scheduled_at` normalisation of `EmailRequest::save`
(src/models/request.rs:35-54). `Except.error m` models the Rust panic with
message `m` (`.expect("Failed to parse date")`): the save diverges and nothing
is inserted. `nowUtc` is `Utc::now()` truncated to seconds; `offsetSecs` is
the local timezone offset. -/
def saveScheduledAt (offsetSecs : Int) (nowUtc : CivilDateTime) (inp : Option String) :
    Except String String :=
  match inp with
  | some s =>
    if s.isEmpty then Except.ok (formatCivil nowUtc)
    else
      match parseCivil s with
      | none => Except.error "Failed to parse date"
      | some dt =>
        Except.ok (formatCivil (fromEpochSecs (toEpochSecs dt - offsetSecs)))
  | none => Except.ok (formatCivil nowUtc)

/-- Lexicographic order on character lists, the order SQLite's memcmp-based
TEXT comparison induces on ASCII strings. -/
def lexLeChars : List Char → List Char → Bool
  | [], _ => true
  | _ :: _, [] => false
  | a :: as, b :: bs =>
    if a < b then true else if b < a then false else lexLeChars as bs

/-- SQLite TEXT `<=` on the `YYYY-MM-DD HH:MM:SS` strings this schema stores
(binary collation; on ASCII it is character-wise lexicographic, and on this
fixed-width format it coincides with chronological order). -/
def sqliteTextLe (a b : String) : Bool := lexLeChars a.toList b.toList

/-- The SELECT of scheduler.rs:11-16 over a store modelled as a list of rows:
rows with `status = 0` and `scheduled_at ≤ now`, first 1000 in store order. -/
def fetchDue (now : String) (db : List DbEmailRequest) : List DbEmailRequest :=
  (db.filter (fun r => r.status == 0 && sqliteTextLe r.scheduled_at now)).take 1000

/-- Conversion of a fetched row into the channel message (scheduler.rs:50-67):
`scheduled_at` is dropped, `status` is re-initialised to `Created`,
`error` and `message_id` are `None`. -/
def schedulerRowToRequest (r : DbEmailRequest) : EmailRequest :=
  { id := some r.id, topic_id := some r.topic_id, email := r.email,
    subject := r.subject, content := r.content, scheduled_at := none,
    status := statusCreated, error := none, message_id := none }

/-- The claim UPDATE of scheduler.rs:40-43:
`UPDATE email_requests SET status = 1 WHERE id IN (ids)`. -/
def applyClaimUpdate (ids : List Int) (db : List DbEmailRequest) : List DbEmailRequest :=
  db.map (fun r => if r.id ∈ ids then { r with status := statusProcessed } else r)

structure SchedulerOutcome where
  newDb : List DbEmailRequest
  enqueued : List EmailRequest
  sleepSecs : Option Nat
deriving Repr, DecidableEq

/-- One iteration of `schedule_pre_send_message` (scheduler.rs:10-77) on a
successful fetch. `updateOk` tells whether the claim UPDATE statement
succeeded; on failure the code logs and `continue`s with the store unchanged
and nothing enqueued. -/
def scheduleIteration (now : String) (db : List DbEmailRequest) (updateOk : Bool) :
    SchedulerOutcome :=
  let rows := fetchDue now db
  if rows.isEmpty then
    { newDb := db, enqueued := [], sleepSecs := some 60 }
  else
    let ids := rows.map (fun r => r.id)
    if updateOk then
      { newDb := applyClaimUpdate ids db,
        enqueued := rows.map schedulerRowToRequest,
        sleepSecs := none }
    else
      { newDb := db, enqueued := [], sleepSecs := none }

/-! ### Ingester (src/handlers/message_handlers.rs, `create_message_handler`) -/

/-- `struct Message` of message_handlers.rs:13-19. -/
structure Message where
  topic_id : Option String
  emails : List String
  subject : String
  content : String
deriving Repr, DecidableEq

/-- `struct CreateMessageRequest` of message_handlers.rs:23-27. -/
structure CreateMessageRequest where
  messages : List Message
  scheduled_at : Option String
deriving Repr, DecidableEq

/-- The batch-level status computation of message_handlers.rs:40-47: default
`Created`; `Processed` when `scheduled_at` is `None` or `Some("")`. -/
def ingestStatus (scheduled_at : Option String) : Int :=
  match scheduled_at with
  | some s => if s.isEmpty then statusProcessed else statusCreated
  | none => statusProcessed

/-- Fan-out of message_handlers.rs:50-69: one `EmailRequest` per
(message, email) pair, all carrying the batch `scheduled_at` and status. -/
def ingestRequests (p : CreateMessageRequest) : List EmailRequest :=
  p.messages.flatMap (fun m =>
    m.emails.map (fun e =>
      { id := none, topic_id := some (m.topic_id.getD ""), error := none,
        email := e, subject := m.subject, content := m.content,
        scheduled_at := p.scheduled_at, status := ingestStatus p.scheduled_at,
        message_id := none }))

structure BatchOutcome where
  persisted : List DbEmailRequest
  enqueued : List EmailRequest
  statusCode : Nat
deriving Repr, DecidableEq

/-- `create_message_handler` (message_handlers.rs:33-83). Every per-recipient
task runs `request.save(...)` and then, iff the batch status is `Processed`,
pushes the saved request onto the send-queue (message_handlers.rs:70-77).
Every task normalises the same batch `scheduled_at` before its INSERT, so the
normalisation is hoisted: a malformed value panics (`Except.error`) in every
task before any row is inserted, and the handler produces no HTTP response.
On success the handler replies 200 (message_handlers.rs:82). `nextId` models
the store's id sequence. -/
def createMessageOutcome (offsetSecs : Int) (nowUtc : CivilDateTime) (nextId : Int)
    (p : CreateMessageRequest) : Except String BatchOutcome :=
  match saveScheduledAt offsetSecs nowUtc p.scheduled_at with
  | Except.error e => Except.error e
  | Except.ok sched =>
    let reqs := ingestRequests p
    let dbRows := List.zipWith
      (fun (i : Nat) (r : EmailRequest) =>
        ({ id := nextId + (i : Int), topic_id := r.topic_id.getD "",
           message_id := none, email := r.email, subject := r.subject,
           content := r.content, scheduled_at := sched, status := r.status,
           error := none } : DbEmailRequest))
      (List.range reqs.length) reqs
    let savedReqs := List.zipWith
      (fun (i : Nat) (r : EmailRequest) => { r with id := some (nextId + (i : Int)) })
      (List.range reqs.length) reqs
    Except.ok
      { persisted := dbRows,
        enqueued := if ingestStatus p.scheduled_at == statusProcessed then savedReqs else [],
        statusCode := 200 }

/-- `send_email` result mapping (sender.rs:51-59): a transport error is
returned as-is; on success the provider's optional message id is unwrapped
with `unwrap_or_default()`, i.e. the empty string when absent. -/
def send_email (providerOutcome : Except String (Option String)) : Except String String :=
  match providerOutcome with
  | Except.error e => Except.error e
  | Except.ok mid => Except.ok (mid.getD "")

/-- The open-pixel append of receiver.rs:24-30. -/
def appendOpenPixel (serverUrl : String) (req : EmailRequest) : EmailRequest :=
  { req with content := req.content ++ "<img src=\"" ++ serverUrl ++
      "/v1/events/open?request_id=" ++ toString (req.id.getD 0) ++ "\">" }

/-- The post-send outcome of receiver.rs:41-50: on `Ok(message_id)` set
`status = Sent` and `message_id = Some(id)`; on `Err(e)` set `status = Failed`
and `error = Some("Failed to send email: <e>")`. All other fields pass
through unchanged. -/
def applySendOutcome (req : EmailRequest) (result : Except String String) : EmailRequest :=
  match result with
  | Except.ok mid => { req with status := statusSent, message_id := some mid }
  | Except.error e =>
    { req with status := statusFailed, error := some ("Failed to send email: " ++ e) }

/-! ### JSON values and the callback ingestor
(src/handlers/event_handlers.rs, `create_event_handler`) -/

/-- JSON values (the image of `serde_json::Value`; numbers as integers
suffice for the fields this program inspects). -/
inductive Json where
  | null : Json
  | bool (b : Bool) : Json
  | num (n : Int) : Json
  | str (s : String) : Json
  | arr (xs : List Json) : Json
  | obj (fields : List (String × Json)) : Json
deriving Repr

/-- `Value::get(key)` on an object (key lookup; absent otherwise). -/
def Json.getKey (j : Json) (key : String) : Option Json :=
  match j with
  | Json.obj fields => fields.lookup key
  | _ => none

/-- `Value::as_str()`. -/
def Json.asStr (j : Json) : Option String :=
  match j with
  | Json.str s => some s
  | _ => none

/-- `struct CreateEventNotification` of event_handlers.rs:62-68:
`notificationType` (renamed to the Rust field `event_type`) plus the remaining
fields flattened into a `Value`. -/
structure CreateEventNotification where
  event_type : String
  other_fields : Json
deriving Repr

/-- serde's deserialisation of `CreateEventNotification` from an already
JSON-parsed value: it succeeds exactly on objects carrying a string field
`notificationType`, and collects the remaining fields. -/
def parseSesNotification (j : Json) : Option CreateEventNotification :=
  match j with
  | Json.obj fields =>
    match fields.lookup "notificationType" with
    | some (Json.str t) =>
      some ⟨t, Json.obj (fields.filter (fun kv => kv.1 != "notificationType"))⟩
    | _ => none
  | _ => none

/-- The SES message-id extraction of event_handlers.rs:198-203:
`other_fields.get("mail").and_then(|mail| mail.get("messageId")).and_then(|id| id.as_str())`. -/
def extractSesMessageId (n : CreateEventNotification) : Option String :=
  ((n.other_fields.getKey "mail").bind (fun mail => mail.getKey "messageId")).bind Json.asStr

/-- `EmailRequest::get_request_id_by_message_id` (src/models/request.rs:182-198):
`fetch_one` of `SELECT id FROM email_requests WHERE message_id = ?` — the
first matching row's id, or a store error when none matches. -/
def getRequestIdByMessageId (db : List DbEmailRequest) (mid : String) : Option Int :=
  (db.find? (fun r => r.message_id == some mid)).map (fun r => r.id)

structure HandlerResponse where
  status : Nat
  body : String
deriving Repr, DecidableEq

/-- The `Notification` branch of `create_event_handler`
(event_handlers.rs:190-261), past the header gate, body-size check and
top-level envelope parse. `message` is the inner `Message` string and
`innerJson` its JSON parse result (`none` when the string is not JSON).
`saveOk` tells whether the `EmailResult` INSERT succeeds. Returns the HTTP
response and the list of result rows appended to the store. -/
def handleNotification (db : List DbEmailRequest) (saveOk : Bool)
    (message : String) (innerJson : Option Json) : HandlerResponse × List EmailResult :=
  match innerJson.bind parseSesNotification with
  | none => (⟨200, "Non-SES notification received"⟩, [])
  | some n =>
    match extractSesMessageId n with
    | none => (⟨400, "SES message_id not found"⟩, [])
    | some mid =>
      match getRequestIdByMessageId db mid with
      | none => (⟨500, "Failed to retrieve request_id"⟩, [])
      | some rid =>
        if saveOk then
          (⟨200, "OK"⟩, [{ id := none, request_id := rid, status := n.event_type,
                           raw := some message }])
        else
          (⟨500, "Failed to save event"⟩, [])

/-! ### Open-pixel endpoint (src/handlers/event_handlers.rs, `open_message_handler`) -/

/-- Rust `str::parse::<i32>`: optional sign, one or more ASCII digits,
within the i32 range. -/
def parseI32 (s : String) : Option Int :=
  let parseDigits : List Char → Int → Option Int := fun digits sign =>
    if digits.isEmpty then none
    else if digits.all Char.isDigit then
      let mag : Int := digits.foldl (fun acc c => acc * 10 + ((c.toNat : Int) - 48)) 0
      let v := sign * mag
      if -2147483648 ≤ v ∧ v ≤ 2147483647 then some v else none
    else none
  match s.toList with
  | '+' :: rest => parseDigits rest 1
  | '-' :: rest => parseDigits rest (-1)
  | rest => parseDigits rest 1

/-- The fixed 1x1 transparent PNG of event_handlers.rs:103-109. -/
def pngBytes : List Nat :=
  [0x89, 0x50, 0x4E, 0x47, 0x0D, 0x0A, 0x1A, 0x0A, 0x00, 0x00, 0x00, 0x0D, 0x49, 0x48, 0x44,
   0x52, 0x00, 0x00, 0x00, 0x01, 0x00, 0x00, 0x00, 0x01, 0x08, 0x06, 0x00, 0x00, 0x00, 0x1F,
   0x15, 0xC4, 0x89, 0x00, 0x00, 0x00, 0x0A, 0x49, 0x44, 0x41, 0x54, 0x78, 0x9C, 0x63, 0x00,
   0x00, 0x00, 0x02, 0x00, 0x01, 0xE2, 0x26, 0x05, 0x9B, 0x00, 0x00, 0x00, 0x00, 0x49, 0x45,
   0x4E, 0x44, 0xAE, 0x42, 0x60, 0x82]

structure PngResponse where
  status : Nat
  contentType : String
  body : List Nat
deriving Repr, DecidableEq

/-- `open_message_handler` (event_handlers.rs:74-113). If the `request_id`
query parameter is present and parses as an `i32`, an
`EmailResult { status: "Open", request_id, raw: None }` is saved; a save
error (`saveOk = false`) is logged and swallowed. In every case the response
is 200 with content-type image/png and the fixed PNG body. Note the handler
never consults the request store: the parsed id is used as-is. -/
def openMessageOutcome (saveOk : Bool) (request_id : Option String) :
    PngResponse × List EmailResult :=
  let results :=
    match request_id with
    | some s =>
      match parseI32 s with
      | some id => if saveOk then [{ id := none, request_id := id,
                                     status := "Open", raw := none }] else []
      | none => []
    | none => []
  (⟨200, "image/png", pngBytes⟩, results)

/-! ### The email_results INSERT under the store's schema -/

/-- Modelled from the spec: the production `email_results` schema is not under
src (src/ holds only the test schema in src/models/result.rs, which declares
`FOREIGN KEY (request_id) REFERENCES email_requests(id)`); spec section 6
likewise marks `request_id` as a foreign key. sqlx's SQLite connect options
enable `PRAGMA foreign_keys = ON` by default, so an INSERT whose `request_id`
matches no `email_requests` row fails with a constraint violation. `ioOk`
models every other store fault. -/
def resultInsertOk (db : List DbEmailRequest) (ioOk : Bool) (res : EmailResult) : Bool :=
  ioOk && db.any (fun r => r.id == res.request_id)

/-- `open_message_handler` composed with the FK-enforcing store: the save
outcome the handler observes (and swallows on failure,
event_handlers.rs:90-95) is the store's verdict on the attempted row. -/
def openMessageStoreOutcome (db : List DbEmailRequest) (ioOk : Bool)
    (request_id : Option String) : PngResponse × List EmailResult :=
  match request_id with
  | some s =>
    match parseI32 s with
    | some i =>
      openMessageOutcome (resultInsertOk db ioOk ⟨none, i, "Open", none⟩) request_id
    | none => openMessageOutcome ioOk request_id
  | none => openMessageOutcome ioOk request_id

/-! ## Theorems -/

/-- Helper: an element of `zipWith f as bs` is `f a b` for some members. -/
theorem exists_of_mem_zipWith {α β γ : Type} {f : α → β → γ} {as : List α} {bs : List β}
    {c : γ} (h : c ∈ List.zipWith f as bs) : ∃ a ∈ as, ∃ b ∈ bs, c = f a b := by
  induction as generalizing bs with
  | nil => simp at h
  | cons a as ih =>
    cases bs with
    | nil => simp at h
    | cons b bs =>
      rcases List.mem_cons.mp h with h | h
      · exact ⟨a, List.mem_cons_self _ _, b, List.mem_cons_self _ _, h⟩
      · obtain ⟨a', ha, b', hb, rfl⟩ := ih h
        exact ⟨a', List.mem_cons_of_mem _ ha, b', List.mem_cons_of_mem _ hb, rfl⟩

/-- C10 (counterexample): the spec's capacities do not match the code. The
send-queue channel is created with capacity 1 in src/main.rs:43, not 10000. -/
theorem c10_queue_capacities_refuted :
    ¬ (sendQueueCapacity = 10000 ∧ outcomeQueueCapacity = 1000) := by
  decide

/-- C10 (amended): the send-queue is created with capacity 1 and the
outcome-queue with capacity 1000 (src/main.rs:43-44). -/
theorem c10_queue_capacities :
    sendQueueCapacity = 1 ∧ outcomeQueueCapacity = 1000 := by
  decide

set_option maxRecDepth 100000 in
/-- C2 (counterexample): the rate gate does not bound dispatches by
`max_send_per_second = 24` per sliding second. The tick period is
`1000 / 24 = 41` ms by integer division, so the window [0 ms, 1000 ms)
contains the 25 dispatch instants `0, 41, ..., 984`. -/
theorem c2_rate_gate_refuted :
    ¬ ∀ t : Nat, (dispatchesInWindow maxSendPerSecondDefault t).card ≤
        maxSendPerSecondDefault := by
  intro h
  exact absurd (h 0) (by decide)

set_option maxRecDepth 1000000 in
/-- C2 (amended): the tick period is `1000 / 24 = 41` ms by integer division,
and under tokio's default MissedTickBehavior::Burst the k-th dispatch never
precedes its deadline `k * 41` ms, which caps the gate's first T milliseconds
at `(T + 40) / 41` dispatches — a long-run rate of about 24.4/s, already
above N = 24. But the gate is not a minimum inter-send interval and admits no
fixed sliding-window bound: a tick at which the queue was empty does bank
credit, and after the send-queue has been empty for 60 s (the scheduler's
sleep) a flood of claimed rows is dispatched in one burst — here 1464
dispatches inside a single sliding second. The on-time schedule is itself a
trace, so the 25-dispatch window of the counterexample is realizable too. -/
theorem c2_rate_gate_burst_behavior :
    tickPeriodMs maxSendPerSecondDefault = 41 ∧
    (∀ tick : Nat → Nat, IsDispatchTrace maxSendPerSecondDefault tick →
        ∀ T m : Nat, (traceDispatchesIn tick 0 T m).card ≤ (T + 40) / 41) ∧
    IsDispatchTrace maxSendPerSecondDefault (dispatchTimeMs maxSendPerSecondDefault) ∧
    IsDispatchTrace maxSendPerSecondDefault (burstTick 60000) ∧
    (traceDispatchesIn (burstTick 60000) 60000 61000 1464).card = 1464 := by
  refine ⟨rfl, ?_, ⟨fun k => le_rfl, ?_⟩, ⟨fun k => le_max_left _ _, ?_⟩, ?_⟩
  · intro tick htr T m
    have hsub : traceDispatchesIn tick 0 T m ⊆ Finset.range ((T + 40) / 41) := by
      intro k hk
      simp only [traceDispatchesIn, Finset.mem_filter, Finset.mem_range] at hk
      have hdl := htr.1 k
      simp only [dispatchTimeMs, tickPeriodMs, maxSendPerSecondDefault] at hdl
      simp only [Finset.mem_range]
      omega
    calc (traceDispatchesIn tick 0 T m).card
        ≤ (Finset.range ((T + 40) / 41)).card := Finset.card_le_card hsub
      _ = (T + 40) / 41 := Finset.card_range _
  · intro a b hab
    simp only [dispatchTimeMs]
    exact Nat.mul_le_mul_right _ hab
  · intro a b hab
    simp only [burstTick, dispatchTimeMs]
    exact max_le_max (Nat.mul_le_mul_right _ hab) le_rfl
  · decide

/-- C2 (witness): the cumulative deadline cap applied to the concrete
60-second burst trace over its first 61 seconds. -/
theorem c2_rate_gate_burst_behavior_witness :
    (traceDispatchesIn (burstTick 60000) 0 61000 1464).card ≤ (61000 + 40) / 41 := by
  refine c2_rate_gate_burst_behavior.2.1 (burstTick 60000) ?_ 61000 1464
  exact ⟨fun k => le_max_left _ _,
    fun a b hab => max_le_max (Nat.mul_le_mul_right _ hab) le_rfl⟩

/-- C1: each scheduler iteration fetches at most 1000 rows, all with
`status = Created` and `scheduled_at ≤ now`; an empty fetch sleeps 60 s and
leaves everything unchanged; a failed claim UPDATE abandons the iteration
with the store unchanged and nothing enqueued; a successful claim UPDATE
sets `status = Processed` on every fetched id, and only the so-claimed rows
are enqueued. -/
theorem c1_scheduler_iteration (now : String) (db : List DbEmailRequest) (updateOk : Bool) :
    (fetchDue now db).length ≤ 1000 ∧
    (∀ r ∈ fetchDue now db, r.status = statusCreated ∧ sqliteTextLe r.scheduled_at now = true) ∧
    ((fetchDue now db).isEmpty = true →
        scheduleIteration now db updateOk = ⟨db, [], some 60⟩) ∧
    ((fetchDue now db).isEmpty = false → updateOk = false →
        scheduleIteration now db updateOk = ⟨db, [], none⟩) ∧
    ((fetchDue now db).isEmpty = false → updateOk = true →
        scheduleIteration now db updateOk =
          ⟨applyClaimUpdate ((fetchDue now db).map (fun r => r.id)) db,
            (fetchDue now db).map schedulerRowToRequest, none⟩ ∧
        ∀ r ∈ applyClaimUpdate ((fetchDue now db).map (fun r => r.id)) db,
          r.id ∈ (fetchDue now db).map (fun r => r.id) → r.status = statusProcessed) := by
  refine ⟨?_, ?_, ?_, ?_, ?_⟩
  · simp [fetchDue, List.length_take]
  · intro r hr
    have hf := List.mem_of_mem_take hr
    have hc := List.of_mem_filter hf
    rw [Bool.and_eq_true, beq_iff_eq] at hc
    exact ⟨hc.1, hc.2⟩
  · intro he
    simp [scheduleIteration, he]
  · intro he hu
    simp [scheduleIteration, he, hu]
  · intro he hu
    refine ⟨by simp [scheduleIteration, he, hu], ?_⟩
    intro r hr hid
    obtain ⟨a, _, rfl⟩ := List.mem_map.mp hr
    by_cases hma : a.id ∈ (fetchDue now db).map (fun r => r.id)
    · simp [hma]
    · simp [hma] at hid

/-- Helper: every fanned-out ingest request carries the batch status. -/
theorem ingestRequests_status (p : CreateMessageRequest) :
    ∀ q ∈ ingestRequests p, q.status = ingestStatus p.scheduled_at := by
  intro q hq
  simp only [ingestRequests, List.mem_flatMap, List.mem_map] at hq
  obtain ⟨m, _, e, _, rfl⟩ := hq
  rfl

/-- C3: each per-recipient request gets initial status Processed and is
enqueued right after persist exactly when the batch `scheduled_at` is absent
or the empty string; a non-empty `scheduled_at` yields initial status Created
and the rows are persisted only, never enqueued
(message_handlers.rs:40-47 and 70-78). -/
theorem c3_ingest_status_enqueue (offsetSecs : Int) (nowUtc : CivilDateTime) (nextId : Int)
    (p : CreateMessageRequest) (o : BatchOutcome)
    (hok : createMessageOutcome offsetSecs nowUtc nextId p = Except.ok o) :
    ((p.scheduled_at = none ∨ p.scheduled_at = some "") →
        (∀ r ∈ o.persisted, r.status = statusProcessed) ∧
        (∀ r ∈ o.enqueued, r.status = statusProcessed) ∧
        o.enqueued.map (fun r => r.id) = o.persisted.map (fun r => some r.id)) ∧
    (∀ s, p.scheduled_at = some s → s ≠ "" →
        (∀ r ∈ o.persisted, r.status = statusCreated) ∧ o.enqueued = []) := by
  constructor
  · intro hna
    have hst : ingestStatus p.scheduled_at = statusProcessed := by
      rcases hna with h | h <;>
        simp [ingestStatus, h, statusProcessed, show "".isEmpty = true from rfl]
    rw [createMessageOutcome] at hok
    have hsave : saveScheduledAt offsetSecs nowUtc p.scheduled_at =
        Except.ok (formatCivil nowUtc) := by
      rcases hna with h | h <;>
        simp [saveScheduledAt, h, show "".isEmpty = true from rfl]
    rw [hsave] at hok
    simp only [Except.ok.injEq] at hok
    subst hok
    refine ⟨?_, ?_, ?_⟩
    · intro r hr
      obtain ⟨i, _, q, hq, rfl⟩ := exists_of_mem_zipWith hr
      simpa [ingestRequests_status p q hq] using hst
    · intro r hr
      simp only [hst, statusProcessed, beq_self_eq_true, if_true] at hr
      obtain ⟨i, _, q, hq, rfl⟩ := exists_of_mem_zipWith hr
      simpa [ingestRequests_status p q hq] using hst
    · simp only [hst, statusProcessed, beq_self_eq_true, if_true, List.map_zipWith]
  · intro s hs hne
    have hst : ingestStatus p.scheduled_at = statusCreated := by
      simp [ingestStatus, hs, String.isEmpty_iff, hne, statusCreated]
    rw [createMessageOutcome] at hok
    rcases hsv : saveScheduledAt offsetSecs nowUtc p.scheduled_at with e | sched
    · rw [hsv] at hok; cases hok
    · rw [hsv] at hok
      simp only [Except.ok.injEq] at hok
      subst hok
      refine ⟨?_, ?_⟩
      · intro r hr
        obtain ⟨i, _, q, hq, rfl⟩ := exists_of_mem_zipWith hr
        simpa [ingestRequests_status p q hq] using hst
      · simp [hst, statusCreated, statusProcessed]

/-- C3 (witness): an immediate batch of one recipient is persisted with
status Processed and the enqueued ids track the persisted ids. -/
theorem c3_ingest_status_enqueue_witness :
    (({ persisted := [⟨10, "T", none, "a@x", "s", "c", "2024-01-01 00:00:00",
          statusProcessed, none⟩],
        enqueued := [⟨some 10, some "T", "a@x", "s", "c", none,
          statusProcessed, none, none⟩],
        statusCode := 200 } : BatchOutcome)).enqueued.map (fun r => r.id) =
      (({ persisted := [⟨10, "T", none, "a@x", "s", "c", "2024-01-01 00:00:00",
            statusProcessed, none⟩],
          enqueued := [⟨some 10, some "T", "a@x", "s", "c", none,
            statusProcessed, none, none⟩],
          statusCode := 200 } : BatchOutcome)).persisted.map (fun r => some r.id) :=
  ((c3_ingest_status_enqueue 0 ⟨2024, 1, 1, 0, 0, 0⟩ 10
      ⟨[⟨some "T", ["a@x"], "s", "c"⟩], none⟩ _ rfl).1 (Or.inl rfl)).2.2

/-- C1 (witness): with one due row and a failing claim UPDATE, the iteration
enqueues nothing and leaves the store unchanged. -/
theorem c1_scheduler_iteration_witness :
    scheduleIteration "2024-06-01 00:00:00"
        [⟨1, "t", none, "a@x", "s", "c", "2024-01-01 00:00:00", 0, none⟩] false =
      ⟨[⟨1, "t", none, "a@x", "s", "c", "2024-01-01 00:00:00", 0, none⟩], [], none⟩ :=
  (c1_scheduler_iteration "2024-06-01 00:00:00"
      [⟨1, "t", none, "a@x", "s", "c", "2024-01-01 00:00:00", 0, none⟩] false).2.2.2.1
    (by decide) rfl

/-- C4 (counterexample): it is not the case that every post-send outcome with
status Sent carries a non-empty message id: when the provider reports success
without a message id, `send_email` returns `""` (`unwrap_or_default()`,
sender.rs:59) and the outcome is Sent with `message_id = Some("")`. -/
theorem c4_sent_nonempty_refuted :
    ¬ (∀ (req : EmailRequest) (res : Except String String),
        (applySendOutcome req res).status = statusSent →
          ∃ m, (applySendOutcome req res).message_id = some m ∧ m ≠ "") := by
  intro h
  obtain ⟨m, hm, hne⟩ :=
    h ⟨some 1, some "t", "a@x", "s", "c", none, statusProcessed, none, none⟩
      (send_email (Except.ok none)) rfl
  simp [applySendOutcome, send_email] at hm
  exact hne hm.symm

/-- C4 (amended): for requests entering the sender with no message id and no
error (as both producers emit them), the post-send outcome has `message_id`
set iff status = Sent; on provider success status = Sent with exactly the
provider id (possibly empty); on provider failure status = Failed with
error "Failed to send email: <reason>", which is non-empty and only ever set
on Failed. Scheduler rows, ingest rows and the open-pixel append all supply
`message_id = None` and `error = None` to the sender. -/
theorem c4_post_send_outcome (req : EmailRequest) (res : Except String String)
    (hm : req.message_id = none) (he : req.error = none) :
    ((applySendOutcome req res).message_id.isSome ↔
        (applySendOutcome req res).status = statusSent) ∧
    (∀ mid, res = Except.ok mid →
        applySendOutcome req res =
          { req with status := statusSent, message_id := some mid }) ∧
    (∀ e, res = Except.error e →
        applySendOutcome req res =
          { req with status := statusFailed,
                     error := some ("Failed to send email: " ++ e) }) ∧
    (∀ s, (applySendOutcome req res).error = some s →
        s ≠ "" ∧ (applySendOutcome req res).status = statusFailed) ∧
    (∀ r : DbEmailRequest, (schedulerRowToRequest r).message_id = none ∧
        (schedulerRowToRequest r).error = none) ∧
    (∀ p : CreateMessageRequest, ∀ q ∈ ingestRequests p,
        q.message_id = none ∧ q.error = none) ∧
    (∀ url, (appendOpenPixel url req).message_id = req.message_id ∧
        (appendOpenPixel url req).error = req.error ∧
        (appendOpenPixel url req).status = req.status) := by
  refine ⟨?_, ?_, ?_, ?_, ?_, ?_, ?_⟩
  · cases res with
    | ok mid => simp [applySendOutcome, statusSent]
    | error e => simp [applySendOutcome, hm, statusSent, statusFailed]
  · intro mid hres
    subst hres
    rfl
  · intro e hres
    subst hres
    rfl
  · intro s hs
    cases res with
    | ok mid => simp [applySendOutcome, he] at hs
    | error e =>
      simp only [applySendOutcome] at hs
      obtain rfl := (Option.some.inj hs).symm
      constructor
      · intro hcon
        have := congrArg String.length hcon
        simp [String.length_append] at this
        exact absurd this.1 (by decide)
      · rfl
  · intro r
    exact ⟨rfl, rfl⟩
  · intro p q hq
    simp only [ingestRequests, List.mem_flatMap, List.mem_map] at hq
    obtain ⟨mm, _, e, _, rfl⟩ := hq
    exact ⟨rfl, rfl⟩
  · intro url
    exact ⟨rfl, rfl, rfl⟩

/-- C4 (witness): a successful provider call with id "mid-1" yields a Sent
outcome carrying exactly that message id. -/
theorem c4_post_send_outcome_witness :
    applySendOutcome ⟨some 1, some "t", "a@x", "s", "c", none, statusProcessed, none, none⟩
        (Except.ok "mid-1") =
      { (⟨some 1, some "t", "a@x", "s", "c", none, statusProcessed, none, none⟩ : EmailRequest)
          with status := statusSent, message_id := some "mid-1" } :=
  (c4_post_send_outcome
      ⟨some 1, some "t", "a@x", "s", "c", none, statusProcessed, none, none⟩
      (Except.ok "mid-1") rfl rfl).2.1 "mid-1" rfl

/-- C5 (counterexample): an inner Message that is valid JSON but lacks the
`notificationType` field — such as the object with the single field "foo" —
is answered 200 "Non-SES notification received" although `mail.messageId`
is absent, not 400 as claimed (event_handlers.rs:195 with 252-259). -/
theorem c5_callback_missing_id_refuted :
    (handleNotification [] true "m" (some (Json.obj [("foo", Json.num 1)]))).1.status ≠ 400 ∧
    handleNotification [] true "m" (some (Json.obj [("foo", Json.num 1)])) =
      (⟨200, "Non-SES notification received"⟩, []) := by
  exact ⟨by decide, rfl⟩

/-- C5 (amended): for Notification callbacks past the header gate: an inner
Message that does not parse as an SES notification (not JSON, or JSON without
a string `notificationType`) gets 200 "Non-SES notification received"; one
that parses but lacks `mail.messageId` gets 400; with `mail.messageId`
present and a request whose `message_id` equals it, an EmailResult with
status = notificationType and raw = the original Message string is appended
and the response is 200; with no matching request the response is 500 and
nothing is appended. -/
theorem c5_callback_responses (db : List DbEmailRequest) (saveOk : Bool)
    (message : String) (j : Json) :
    (handleNotification db saveOk message none =
        (⟨200, "Non-SES notification received"⟩, [])) ∧
    (parseSesNotification j = none →
        handleNotification db saveOk message (some j) =
          (⟨200, "Non-SES notification received"⟩, [])) ∧
    (∀ n, parseSesNotification j = some n → extractSesMessageId n = none →
        handleNotification db saveOk message (some j) =
          (⟨400, "SES message_id not found"⟩, [])) ∧
    (∀ n mid, parseSesNotification j = some n → extractSesMessageId n = some mid →
        getRequestIdByMessageId db mid = none →
        handleNotification db saveOk message (some j) =
          (⟨500, "Failed to retrieve request_id"⟩, [])) ∧
    (∀ n mid rid, parseSesNotification j = some n → extractSesMessageId n = some mid →
        getRequestIdByMessageId db mid = some rid → saveOk = true →
        handleNotification db saveOk message (some j) =
          (⟨200, "OK"⟩, [⟨none, rid, n.event_type, some message⟩])) := by
  refine ⟨rfl, ?_, ?_, ?_, ?_⟩
  · intro hp
    simp [handleNotification, hp]
  · intro n hp hx
    simp [handleNotification, hp, hx]
  · intro n mid hp hx hdb
    simp [handleNotification, hp, hx, hdb]
  · intro n mid rid hp hx hdb hsv
    subst hsv
    simp [handleNotification, hp, hx, hdb]

/-- C5 (witness): a Delivery notification for provider id "abc" correlated
against a store holding request 7 with that message id appends exactly one
Delivery result carrying the raw Message string, and responds 200 OK. -/
theorem c5_callback_responses_witness :
    handleNotification [⟨7, "t", some "abc", "a@x", "s", "c", "2024-01-01 00:00:00", 2, none⟩]
        true "raw-msg"
        (some (Json.obj [("notificationType", Json.str "Delivery"),
                         ("mail", Json.obj [("messageId", Json.str "abc")])])) =
      (⟨200, "OK"⟩, [⟨none, 7, "Delivery", some "raw-msg"⟩]) :=
  (c5_callback_responses
      [⟨7, "t", some "abc", "a@x", "s", "c", "2024-01-01 00:00:00", 2, none⟩] true "raw-msg"
      (Json.obj [("notificationType", Json.str "Delivery"),
                 ("mail", Json.obj [("messageId", Json.str "abc")])])).2.2.2.2
    ⟨"Delivery", Json.obj [("mail", Json.obj [("messageId", Json.str "abc")])]⟩
    "abc" 7 rfl rfl rfl rfl

/-- C6 (counterexample): the fixed PNG body the handler returns has 66 bytes,
not 67 — the array of event_handlers.rs:103-109 holds 66 entries (its IDAT
chunk declares 10 data bytes but carries 9). -/
theorem c6_png_length_refuted :
    (openMessageOutcome true none).1.body.length ≠ 67 ∧
    (openMessageOutcome true none).1.body.length = 66 := by
  exact ⟨by decide, by decide⟩

/-- C6 (amended): every GET on the open-pixel endpoint — request_id valid,
malformed or missing — is answered 200 with content-type image/png and the
fixed 66-byte PNG body (starting with the 8-byte PNG signature); a parseable
integer request_id appends exactly one EmailResult{status:"Open", request_id,
raw:None} (store errors swallowed, the PNG still returned); a missing or
non-integer request_id appends nothing. -/
theorem c6_open_pixel (saveOk : Bool) (qid : Option String) :
    (openMessageOutcome saveOk qid).1 = ⟨200, "image/png", pngBytes⟩ ∧
    pngBytes.length = 66 ∧
    pngBytes.take 8 = [0x89, 0x50, 0x4E, 0x47, 0x0D, 0x0A, 0x1A, 0x0A] ∧
    (qid = none → (openMessageOutcome saveOk qid).2 = []) ∧
    (∀ s, qid = some s → parseI32 s = none → (openMessageOutcome saveOk qid).2 = []) ∧
    (∀ s i, qid = some s → parseI32 s = some i → saveOk = true →
        (openMessageOutcome saveOk qid).2 =
          [{ id := none, request_id := i, status := "Open", raw := none }]) ∧
    (saveOk = false → (openMessageOutcome saveOk qid).2 = []) := by
  refine ⟨rfl, by decide, by decide, ?_, ?_, ?_, ?_⟩
  · intro h
    subst h
    rfl
  · intro s hq hp
    subst hq
    simp [openMessageOutcome, hp]
  · intro s i hq hp hsv
    subst hq
    subst hsv
    simp [openMessageOutcome, hp]
  · intro hsv
    subst hsv
    cases qid with
    | none => rfl
    | some s =>
      cases hp : parseI32 s with
      | none => simp [openMessageOutcome, hp]
      | some i => simp [openMessageOutcome, hp]

/-- C6 (witness): GET ?request_id=7 with a working store appends one Open
result for id 7. -/
theorem c6_open_pixel_witness :
    (openMessageOutcome true (some "7")).2 =
      [{ id := none, request_id := 7, status := "Open", raw := none }] :=
  (c6_open_pixel true (some "7")).2.2.2.2.2.1 "7" 7 rfl rfl rfl

/-- C9: every EmailResult, at the moment it is written, resolves to an
existing EmailRequest. The callback ingestor's request_id comes from
`get_request_id_by_message_id` over the stored rows; the open-pixel path
attempts the INSERT with whatever integer parsed, but the store's foreign
key on `email_results.request_id` (enforced: sqlx turns
`PRAGMA foreign_keys = ON` by default) fails a dangling INSERT and the
handler swallows the error, so no dangling row is ever written. -/
theorem c9_results_resolve (db : List DbEmailRequest) (ioOk saveOk : Bool)
    (message : String) (innerJson : Option Json) (qid : Option String) :
    (∀ res ∈ (handleNotification db saveOk message innerJson).2,
        ∃ r ∈ db, res.request_id = r.id) ∧
    (∀ res ∈ (openMessageStoreOutcome db ioOk qid).2,
        ∃ r ∈ db, res.request_id = r.id) := by
  constructor
  · intro res hres
    unfold handleNotification at hres
    split at hres
    · simp at hres
    · rename_i n _
      split at hres
      · simp at hres
      · rename_i mid _
        split at hres
        · simp at hres
        · rename_i rid hrid
          split at hres
          · rw [List.mem_singleton] at hres
            subst hres
            simp only [getRequestIdByMessageId, Option.map_eq_some'] at hrid
            obtain ⟨r, hfind, hid⟩ := hrid
            exact ⟨r, List.mem_of_find?_eq_some hfind, hid.symm⟩
          · simp at hres
  · intro res hres
    unfold openMessageStoreOutcome at hres
    split at hres
    · rename_i s
      split at hres
      · rename_i i hp
        simp only [openMessageOutcome, hp] at hres
        split at hres
        · rename_i hfk
          rw [List.mem_singleton] at hres
          subst hres
          simp only [resultInsertOk, Bool.and_eq_true, List.any_eq_true] at hfk
          obtain ⟨_, r, hr, hbeq⟩ := hfk
          exact ⟨r, hr, (beq_iff_eq.mp hbeq).symm⟩
        · simp at hres
      · rename_i hp
        simp only [openMessageOutcome, hp] at hres
        simp at hres
    · simp only [openMessageOutcome] at hres
      simp at hres

/-- C9 (witness): GET ?request_id=7 against a store holding request 7 writes
one Open result, and it resolves to that request. -/
theorem c9_results_resolve_witness :
    ∃ r ∈ [(⟨7, "t", some "abc", "a@x", "s", "c", "2024-01-01 00:00:00", 2, none⟩ :
        DbEmailRequest)],
      (⟨none, 7, "Open", none⟩ : EmailResult).request_id = r.id :=
  (c9_results_resolve
      [⟨7, "t", some "abc", "a@x", "s", "c", "2024-01-01 00:00:00", 2, none⟩]
      true true "raw" none (some "7")).2
    ⟨none, 7, "Open", none⟩ (by decide)

end SesSender
